import Mathlib

/-!
# Verification of the pong game-state reducer (src/pong.ts)

A shallow embedding of the simulation core of `src/pong.ts`: the body model,
the paddle/ball physics, the AI controller, and the game-state reducer (the
body of the `scan` inside `gameObserver`).  JavaScript numbers are modelled
as rationals (every operation the core performs - addition, subtraction,
multiplication, division by constants - is exact on the values the game
produces, so ℚ is a faithful model on this code).  Calls to `Math.random()`
are modelled by explicit rational parameters, collected in a `Rand` record;
a genuine random draw satisfies `0 ≤ r < 1` (`ValidRand`).

The library's `Rat.add`, `Rat.sub`, `Rat.mul` and `Rat.inv` are marked
irreducible, which would prevent evaluating the embedding on concrete
inputs by kernel reduction; the embedding therefore uses its own
kernel-computable arithmetic `jsadd`, `jssub`, `jsmul`, `jsdiv`, `jsneg`,
each proved equal to the corresponding field operation of ℚ
(`jsadd_eq` etc.), so every theorem below can be read with ordinary
rational arithmetic in place of the wrappers.

Rendering-only fields of the source records (element `id` strings, colours,
the `content` display string of text bodies) are omitted: no simulation-core
branch reads them, with one exception - `gameObserver` reads a score via
`parseInt(scoreBody.content)` where `content` is `numeric.toString()`; since
scores are always integers (they start at 0 and change only by +1),
`parseInt(content) = numeric`, and the embedding uses `numeric` directly.
The `xVel` field of paddles is always 0 and never read, and is omitted.
-/

namespace Pong

set_option maxRecDepth 4000000

set_option maxHeartbeats 1000000

/-- Kernel-computable addition on ℚ; equals `a + b` (`jsadd_eq`). -/
def jsadd (a b : ℚ) : ℚ := Rat.divInt (a.num * b.den + b.num * a.den) (a.den * b.den)

/-- Kernel-computable negation on ℚ; equals `-a` (`jsneg_eq`). -/
def jsneg (a : ℚ) : ℚ := Rat.neg a

/-- Kernel-computable subtraction on ℚ; equals `a - b` (`jssub_eq`). -/
def jssub (a b : ℚ) : ℚ := jsadd a (jsneg b)

/-- Kernel-computable multiplication on ℚ; equals `a * b` (`jsmul_eq`). -/
def jsmul (a b : ℚ) : ℚ := Rat.divInt (a.num * b.num) (a.den * b.den)

/-- Kernel-computable division on ℚ; equals `a / b` (`jsdiv_eq`). -/
def jsdiv (a b : ℚ) : ℚ := Rat.divInt (a.num * b.den) (a.den * b.num)

theorem jsadd_eq (a b : ℚ) : jsadd a b = a + b := by
  have ha : ((a.den : ℚ)) ≠ 0 := by positivity
  have hb : ((b.den : ℚ)) ≠ 0 := by positivity
  rw [jsadd, Rat.divInt_eq_div]
  push_cast
  conv_rhs => rw [← Rat.num_div_den a, ← Rat.num_div_den b]
  field_simp

theorem jsneg_eq (a : ℚ) : jsneg a = -a := rfl

theorem jssub_eq (a b : ℚ) : jssub a b = a - b := by
  rw [jssub, jsneg_eq, jsadd_eq]; ring

theorem jsmul_eq (a b : ℚ) : jsmul a b = a * b := by
  have ha : ((a.den : ℚ)) ≠ 0 := by positivity
  have hb : ((b.den : ℚ)) ≠ 0 := by positivity
  rw [jsmul, Rat.divInt_eq_div]
  push_cast
  conv_rhs => rw [← Rat.num_div_den a, ← Rat.num_div_den b]
  field_simp

theorem jsdiv_eq (a b : ℚ) : jsdiv a b = a / b := by
  rcases eq_or_ne b 0 with hb0 | hb0
  · subst hb0
    show Rat.divInt (a.num * (0:ℚ).den) (a.den * (0:ℚ).num) = a / 0
    norm_num
  · have ha : ((a.den : ℚ)) ≠ 0 := by positivity
    have hbd : ((b.den : ℚ)) ≠ 0 := by positivity
    have hbn : ((b.num : ℚ)) ≠ 0 := by
      exact_mod_cast Rat.num_ne_zero.mpr hb0
    rw [jsdiv, Rat.divInt_eq_div]
    push_cast
    conv_rhs => rw [← Rat.num_div_den a, ← Rat.num_div_den b]
    field_simp

/- Game constants, from the `Constants` object of `src/pong.ts`. -/
namespace Constants

def winningScore : ℚ := 7
def topBound : ℚ := 10
def bottomBound : ℚ := 10
def sideBound : ℚ := 10
def paddleXWidth : ℚ := 20
def paddleYWidth : ℚ := 90
def ballRadius : ℚ := 10
def ballBaseXSpeed : ℚ := 5
def ballBaseYSpeed : ℚ := 8
def paddleSpeed : ℚ := 5
def cpuCheating : ℚ := 2
def startingEnergy : ℚ := 4
def paddleGrowthAbility : ℚ := 30
def paddleShrinkAbility : ℚ := 15
def canvasRight : ℚ := 900
def canvasBottom : ℚ := 600

end Constants

/-- Source type `scoreUpdateTracker`: values "p" / "c"; `null` is modelled by `Option`. -/
inductive Scorer where
  | p : Scorer
  | c : Scorer
deriving DecidableEq, Repr

/-- Source type `RectBody` (paddles): rendering-only fields (`id`, `colour`) and the
always-zero, never-read `xVel` are omitted. -/
structure RectBody where
  xPos : ℚ
  yPos : ℚ
  yVel : ℚ
  xSize : ℚ
  ySize : ℚ
  energy : ℚ
deriving DecidableEq, Repr

/-- Source type `CircleBody` (the ball): `id` and `colourOveride` omitted. -/
structure CircleBody where
  xPos : ℚ
  yPos : ℚ
  xVel : ℚ
  yVel : ℚ
  radius : ℚ
  scoreUpdate : Option Scorer
deriving DecidableEq, Repr

/-- Source type `TextBody`: only the `numeric` payload matters to the core (see the
module comment about `parseInt(content)`). -/
structure TextBody where
  numeric : ℚ
deriving DecidableEq, Repr

/-- The full game `State`. -/
structure State where
  paddleOne : RectBody
  paddleTwo : RectBody
  ball : CircleBody
  scoreOne : TextBody
  scoreTwo : TextBody
  playerEnergy : TextBody
  winnerIs : Option Scorer
deriving DecidableEq, Repr

/-- The action classes `Movement`, `PaddleGrowth`, `Teleport`,
`PaddleShrink`, `Drain`, plus `Tick` for the numbers emitted by
`interval(10)`: a tick is an event that is an instance of none of the action
classes, so in the reducer it falls through every `instanceof` test. -/
inductive Actions where
  | Movement : ℚ → ℚ → Actions
  | PaddleGrowth : ℚ → Actions
  | Teleport : Actions
  | PaddleShrink : ℚ → Actions
  | Drain : Actions
  | Tick : Actions
deriving DecidableEq, Repr

/-- One `Math.random()` draw for each of the (at most two) call sites a
single reducer step can hit: `r1`, `r2` for the two `calculateBallVel`
calls of `movingBallState`, `rCoin`, `rMag` for the two draws of
`genericDefaultBall`. -/
structure Rand where
  r1 : ℚ
  r2 : ℚ
  rCoin : ℚ
  rMag : ℚ
deriving DecidableEq, Repr

/-- A `Math.random()` draw returns a value in `[0, 1)`. -/
def ValidRand (ρ : Rand) : Prop :=
  (0 ≤ ρ.r1 ∧ ρ.r1 < 1) ∧ (0 ≤ ρ.r2 ∧ ρ.r2 < 1) ∧
  (0 ≤ ρ.rCoin ∧ ρ.rCoin < 1) ∧ (0 ≤ ρ.rMag ∧ ρ.rMag < 1)

instance (ρ : Rand) : Decidable (ValidRand ρ) := by
  unfold ValidRand; infer_instance

/-- JavaScript `Math.round`: round half toward positive infinity. -/
def jsRound (x : ℚ) : ℤ := Rat.floor (jsadd x (jsdiv 1 2))

/-- Source `genericPaddle` specialised to a fixed `xPosition` and `width`
(the colouring argument is rendering-only and omitted). -/
def genericPaddle (xPosition width : ℚ)
    (position velocity energy_ length : ℚ) : RectBody :=
  { xPos := xPosition, yPos := position, yVel := velocity,
    xSize := width, ySize := length, energy := energy_ }

/-- The player's paddle generator. -/
def playerPaddle : ℚ → ℚ → ℚ → ℚ → RectBody :=
  genericPaddle (jsadd Constants.sideBound 20) Constants.paddleXWidth

/-- The AI's paddle generator. -/
def aiPaddle : ℚ → ℚ → ℚ → ℚ → RectBody :=
  genericPaddle
    (jssub (jssub (jssub Constants.canvasRight Constants.paddleXWidth) 20)
      Constants.sideBound)
    Constants.paddleXWidth

/-- The `ball` generator (colour argument omitted). -/
def ball (xPos yPos xVel yVel : ℚ) (score : Option Scorer) (r : ℚ) :
    CircleBody :=
  { xPos := xPos, yPos := yPos, xVel := xVel, yVel := yVel,
    radius := r, scoreUpdate := score }

/-- The `playerScore` text generator: only the numeric payload. -/
def playerScore (num : ℚ) : TextBody := ⟨num⟩

/-- The `aiScore` text generator. -/
def aiScore (num : ℚ) : TextBody := ⟨num⟩

/-- The `playerEnergy` text generator. -/
def playerEnergy (num : ℚ) : TextBody := ⟨num⟩

/-- Source `changeScore`: increments a scoreboard by 1. -/
def changeScore (target : ℚ → TextBody) (curren : TextBody) : TextBody :=
  target (jsadd curren.numeric 1)

/-- Increments the player's score by 1. -/
def changePlayerScore : TextBody → TextBody := changeScore playerScore

/-- Increments the ai's score by 1. -/
def changeCpuScore : TextBody → TextBody := changeScore aiScore

/-- Source `halfway`: the vertical middle of the playing field. -/
def halfway : ℚ :=
  jsadd Constants.topBound
    (jsdiv (jssub (jssub Constants.canvasBottom Constants.bottomBound)
      Constants.topBound) 2)

/-- Source `createDefaultPaddleState` applied to a paddle generator, with the
default argument values of the source. -/
def createDefaultPaddleState (paddle : ℚ → ℚ → ℚ → ℚ → RectBody) : RectBody :=
  paddle (jssub halfway (jsdiv Constants.paddleYWidth 2)) 0
    Constants.startingEnergy Constants.paddleYWidth

/-- The default state of the player paddle. -/
def defaultPlayerPaddleState : RectBody := createDefaultPaddleState playerPaddle

/-- The default state of the AI paddle. -/
def defaultAiPaddleState : RectBody := createDefaultPaddleState aiPaddle

/-- Source `genericDefaultBall`: a centred ball whose vertical velocity is built
from two `Math.random()` draws (`rCoin` for the `> 0.5` coin, `rMag` for the
magnitude), with the source's default arguments inlined. -/
def genericDefaultBall (multiplierX multiplierY rCoin rMag : ℚ) : CircleBody :=
  ball (jsdiv Constants.canvasRight 2) (jsdiv Constants.canvasBottom 2)
    (jsmul multiplierX Constants.ballBaseXSpeed)
    (jsmul multiplierY
      ((jsRound (if jsdiv 1 2 < rCoin then
          jsdiv (jsmul Constants.ballBaseYSpeed rMag) 2
        else jsdiv (jsneg (jsmul Constants.ballBaseYSpeed rMag)) 3) : ℤ) : ℚ))
    none Constants.ballRadius

/-- Ball centred, moving towards the player (negative x velocity). -/
def defaultBallState1 (rCoin rMag : ℚ) : CircleBody :=
  genericDefaultBall (-1) 1 rCoin rMag

/-- Ball centred, moving towards the AI (positive x velocity). -/
def defaultBallState2 (rCoin rMag : ℚ) : CircleBody :=
  genericDefaultBall 1 1 rCoin rMag

/-- Ball centred with no velocity (for the end of the game). -/
def defaultStillBall (rCoin rMag : ℚ) : CircleBody :=
  genericDefaultBall 0 0 rCoin rMag

/-- Source `movingPaddleState`: moves a paddle by `vel`, clamping against the
walls, exactly as the source's conditional chain. -/
def movingPaddleState (person : ℚ → ℚ → ℚ → ℚ → RectBody)
    (paddle : RectBody) (vel top bottomWall : ℚ) : RectBody :=
  if (top < paddle.yPos ∧ paddle.yPos < jssub bottomWall paddle.ySize) ∨
     (paddle.yPos ≤ top ∧ 0 ≤ vel) ∨
     (jssub bottomWall paddle.ySize ≤ paddle.yPos ∧ vel ≤ 0) then
    if jsadd paddle.yPos vel < top ∧ vel < 0 then
      person top 0 paddle.energy paddle.ySize
    else if jssub bottomWall paddle.ySize < jsadd paddle.yPos vel ∧ 0 < vel then
      person (jssub bottomWall paddle.ySize) 0 paddle.energy paddle.ySize
    else person (jsadd paddle.yPos vel) vel paddle.energy paddle.ySize
  else person paddle.yPos 0 paddle.energy paddle.ySize

/-- Source `makePaddleState`: dispatch on the action class, in the source's
`instanceof` order.  The source passes no ball argument at the `Drain` and
`PaddleShrink` call sites (the parameter is unused on those paths); the
embedding always passes a ball. -/
def makePaddleState (person : ℚ → ℚ → ℚ → ℚ → RectBody)
    (prev : RectBody) (paddle : Actions) (b : CircleBody) : RectBody :=
  match paddle with
  | .Movement y _x =>
      movingPaddleState person prev y Constants.topBound
        (jssub Constants.canvasBottom Constants.bottomBound)
  | .PaddleGrowth size =>
      if 0 < prev.energy then
        person prev.yPos prev.yVel (jssub prev.energy 1) (jsadd size prev.ySize)
      else
        movingPaddleState person prev prev.yVel Constants.topBound
          (jssub Constants.canvasBottom Constants.bottomBound)
  | .Teleport =>
      if 0 < prev.energy then
        person b.yPos b.yVel (jssub prev.energy 1) prev.ySize
      else
        movingPaddleState person prev prev.yVel Constants.topBound
          (jssub Constants.canvasBottom Constants.bottomBound)
  | .Drain =>
      if 0 < prev.energy then
        person prev.yPos prev.yVel (jssub prev.energy 1) prev.ySize
      else
        movingPaddleState person prev prev.yVel Constants.topBound
          (jssub Constants.canvasBottom Constants.bottomBound)
  | .PaddleShrink size =>
      person prev.yPos prev.yVel prev.energy (jssub prev.ySize size)
  | .Tick =>
      movingPaddleState person prev prev.yVel Constants.topBound
        (jssub Constants.canvasBottom Constants.bottomBound)

/-- Source `followBall`: the AI controller, with the source's default speed
`paddleSpeed + cpuCheating`. -/
def followBall (paddle : RectBody) (b : CircleBody) : Actions :=
  if jsadd paddle.yPos (jsdiv paddle.ySize 2) < b.yPos then
    .Movement (jsadd Constants.paddleSpeed Constants.cpuCheating) 0
  else if b.yPos < jsadd paddle.yPos (jsdiv paddle.ySize 2) then
    .Movement (jsmul (-1) (jsadd Constants.paddleSpeed Constants.cpuCheating)) 0
  else .Movement 0 0

/-- Source `calculateBallVel` (local to `movingBallState` in the source): one
`Math.random()` draw per call, passed as `rand`. -/
def calculateBallVel (speed ymin ymax impactZone rand : ℚ) : ℚ :=
  jsadd (jsmul speed rand)
    (jsdiv
      (if jssub impactZone (jsdiv (jsadd ymax ymin) 2) < 0 then
         jsmul (-1) (jssub impactZone (jsdiv (jsadd ymax ymin) 2))
       else jssub impactZone (jsdiv (jsadd ymax ymin) 2)) 8)

/-- Source `movingBallState`: the ball physics / collision step, with the source's
default arguments inlined.  `r1` is the `Math.random()` draw of the first
`calculateBallVel` call (position deflection), `r2` of the second (new
vertical velocity). -/
def movingBallState (b : CircleBody) (player cpu : RectBody) (r1 r2 : ℚ) :
    CircleBody :=
  if jssub b.xPos b.radius ≤ Constants.sideBound then
    ball b.xPos b.yPos 0 0 (some .c) Constants.ballRadius
  else if jssub Constants.canvasRight Constants.sideBound ≤ jsadd b.xPos b.radius then
    ball b.xPos b.yPos 0 0 (some .p) Constants.ballRadius
  else if (jssub b.yPos b.radius ≤ Constants.topBound ∧ b.yVel < 0) ∨
          (jssub Constants.canvasBottom Constants.bottomBound ≤
              jsadd b.yPos b.radius ∧ 0 < b.yVel) then
    ball (jsadd b.xPos b.xVel) (jssub b.yPos b.yVel) b.xVel
      (jsmul (-1) b.yVel) none Constants.ballRadius
  else if (player.xPos ≤ jssub b.xPos b.radius ∧
            jssub b.xPos b.radius ≤ jsadd player.xPos player.xSize) ∧
          ((player.yPos ≤ jssub b.yPos b.radius ∧
             jssub b.yPos b.radius ≤ jsadd player.yPos player.ySize) ∨
           (player.yPos ≤ jsadd b.yPos b.radius ∧
             jsadd b.yPos b.radius ≤ jsadd player.yPos player.ySize)) ∧
          b.xPos < Constants.canvasRight ∧ b.xVel < 0 then
    ball (jssub b.xPos b.xVel)
      (jsadd b.yPos (calculateBallVel Constants.ballBaseYSpeed player.yPos
        (jsadd player.yPos player.ySize) b.yPos r1))
      (jsmul (-1) b.xVel)
      (calculateBallVel Constants.ballBaseYSpeed player.yPos
        (jsadd player.yPos player.ySize) b.yPos r2)
      none Constants.ballRadius
  else if (cpu.xPos ≤ jsadd b.xPos b.radius ∧
            jsadd b.xPos b.radius ≤ jsadd cpu.xPos cpu.xSize) ∧
          ((cpu.yPos ≤ jssub b.yPos b.radius ∧
             jssub b.yPos b.radius ≤ jsadd cpu.yPos cpu.ySize) ∨
           (cpu.yPos ≤ jsadd b.yPos b.radius ∧
             jsadd b.yPos b.radius ≤ jsadd cpu.yPos cpu.ySize)) ∧
          jsdiv Constants.canvasRight 2 < b.xPos ∧ 0 < b.xVel then
    ball (jssub b.xPos b.xVel)
      (jsadd b.yPos (calculateBallVel Constants.ballBaseYSpeed cpu.yPos
        (jsadd cpu.yPos cpu.ySize) b.yPos r1))
      (jsmul (-1) b.xVel)
      (calculateBallVel Constants.ballBaseYSpeed cpu.yPos
        (jsadd cpu.yPos cpu.ySize) b.yPos r2)
      none Constants.ballRadius
  else
    ball (jsadd b.xPos b.xVel) (jsadd b.yPos b.yVel) b.xVel b.yVel none
      Constants.ballRadius

/-- Source `createState`: the `winner` argument defaults to `null` in the source;
call sites that omit it pass `none` here. -/
def createState (player cpu : RectBody) (b : CircleBody)
    (sc1 sc2 energy : TextBody) (winner : Option Scorer) : State :=
  { paddleOne := player, paddleTwo := cpu, ball := b,
    scoreOne := sc1, scoreTwo := sc2, playerEnergy := energy,
    winnerIs := winner }

/-- The initial / restart state `defaultEverythingState`, parameterised by
the `Math.random()` draws of its `defaultBallState2()` call. -/
def defaultEverythingState (ρ : Rand) : State :=
  createState defaultPlayerPaddleState defaultAiPaddleState
    (defaultBallState2 ρ.rCoin ρ.rMag)
    (playerScore 0) (aiScore 0) (playerEnergy Constants.startingEnergy) none

/-- Source `createEndState` from `runGame`. -/
def createEndState (acc : State) (_s : Actions) (whoWon : Scorer) (ρ : Rand) :
    State :=
  createState
    (playerPaddle defaultPlayerPaddleState.yPos defaultPlayerPaddleState.yVel
      acc.playerEnergy.numeric defaultPlayerPaddleState.ySize)
    (aiPaddle defaultAiPaddleState.yPos defaultAiPaddleState.yVel
      acc.paddleTwo.energy defaultAiPaddleState.ySize)
    (defaultStillBall ρ.rCoin ρ.rMag)
    acc.scoreOne acc.scoreTwo acc.playerEnergy (some whoWon)

/-- Source `createStandardParseState` from `runGame`. -/
def createStandardParseState (acc : State) (s : Actions) (energyDrain : ℚ)
    (ρ : Rand) : State :=
  createState
    (makePaddleState playerPaddle acc.paddleOne s acc.ball)
    (makePaddleState aiPaddle acc.paddleTwo
      (followBall acc.paddleTwo acc.ball) acc.ball)
    (movingBallState acc.ball acc.paddleOne acc.paddleTwo ρ.r1 ρ.r2)
    acc.scoreOne acc.scoreTwo
    (playerEnergy (jssub acc.playerEnergy.numeric energyDrain)) none

/-- The test `s instanceof PaddleGrowth || s instanceof Teleport`. -/
def growOrTeleport : Actions → Bool
  | .PaddleGrowth _ => true
  | .Teleport => true
  | _ => false

/-- The test `s instanceof PaddleShrink`. -/
def shrinkAction : Actions → Bool
  | .PaddleShrink _ => true
  | _ => false

/-- The game-state reducer: the body of the `scan` in `gameObserver`,
with one `Rand` record per step for the `Math.random()` draws the taken
branch may perform. -/
def gameReducer (acc : State) (s : Actions) (ρ : Rand) : State :=
  if growOrTeleport s = true ∧ 0 < acc.playerEnergy.numeric then
    createStandardParseState acc s 1 ρ
  else if shrinkAction s = true then
    if 0 < acc.playerEnergy.numeric then
      createState
        (makePaddleState playerPaddle acc.paddleOne .Drain acc.ball)
        (makePaddleState aiPaddle acc.paddleTwo s acc.ball)
        (movingBallState acc.ball acc.paddleOne acc.paddleTwo ρ.r1 ρ.r2)
        acc.scoreOne acc.scoreTwo
        (playerEnergy (jssub acc.playerEnergy.numeric 1)) none
    else createStandardParseState acc (.Movement 0 0) 0 ρ
  else if acc.ball.scoreUpdate = some .p then
    createState
      (playerPaddle defaultPlayerPaddleState.yPos defaultPlayerPaddleState.yVel
        acc.playerEnergy.numeric defaultPlayerPaddleState.ySize)
      (aiPaddle defaultAiPaddleState.yPos defaultAiPaddleState.yVel
        acc.paddleTwo.energy defaultAiPaddleState.ySize)
      (defaultBallState1 ρ.rCoin ρ.rMag)
      (changePlayerScore acc.scoreOne) acc.scoreTwo
      (playerEnergy acc.playerEnergy.numeric) none
  else if acc.ball.scoreUpdate = some .c then
    createState
      (playerPaddle defaultPlayerPaddleState.yPos defaultPlayerPaddleState.yVel
        (jsadd acc.playerEnergy.numeric 1) defaultPlayerPaddleState.ySize)
      (aiPaddle defaultAiPaddleState.yPos defaultAiPaddleState.yVel
        acc.paddleTwo.energy defaultAiPaddleState.ySize)
      (defaultBallState2 ρ.rCoin ρ.rMag)
      acc.scoreOne (changeCpuScore acc.scoreTwo)
      (playerEnergy (jsadd acc.playerEnergy.numeric 1)) none
  else if acc.scoreOne.numeric = Constants.winningScore then
    createEndState acc s .p ρ
  else if acc.scoreTwo.numeric = Constants.winningScore then
    createEndState acc s .c ρ
  else createStandardParseState acc s 0 ρ

/-- The actions the merged event stream can deliver to the reducer: the
five key-mapped actions (with their fixed payloads), the key-release stop,
and the timer tick.  `Drain` is internal to the shrink branch and is never
emitted by the stream. -/
def emittable : Actions → Bool
  | .Movement y x =>
      (decide (y = Constants.paddleSpeed) ||
       decide (y = jsmul (-1) Constants.paddleSpeed) || decide (y = 0)) &&
      decide (x = 0)
  | .PaddleGrowth sz => decide (sz = Constants.paddleGrowthAbility)
  | .Teleport => true
  | .PaddleShrink sz => decide (sz = Constants.paddleShrinkAbility)
  | .Drain => false
  | .Tick => true

/-- A proposition wrapper for `emittable`. -/
def EmittableAction (a : Actions) : Prop := emittable a = true

instance (a : Actions) : Decidable (EmittableAction a) := by
  unfold EmittableAction; infer_instance

/-- The states the game can actually be in: the initial state (for any
random draws of its serve), closed under reducer steps on emittable events
with valid random draws. -/
inductive Reachable : State → Prop where
  | init (ρ : Rand) (hρ : ValidRand ρ) : Reachable (defaultEverythingState ρ)
  | step {s : State} (a : Actions) (ρ : Rand) (hs : Reachable s)
      (ha : EmittableAction a) (hρ : ValidRand ρ) :
      Reachable (gameReducer s a ρ)

/-- Folding a list of events through the reducer, all with the same random
draws (enough for the concrete traces used below). -/
def runTrace (s : State) (evs : List Actions) (ρ : Rand) : State :=
  evs.foldl (fun st a => gameReducer st a ρ) s

theorem reachable_runTrace {s : State} (ρ : Rand) (hρ : ValidRand ρ) :
    ∀ evs : List Actions, Reachable s → (∀ a ∈ evs, EmittableAction a) →
      Reachable (runTrace s evs ρ) := by
  intro evs
  induction evs generalizing s with
  | nil => intro hs _; exact hs
  | cons a tl ih =>
      intro hs hall
      have ha : EmittableAction a := hall a (List.mem_cons_self a tl)
      have htl : ∀ b ∈ tl, EmittableAction b := fun b hb =>
        hall b (List.mem_cons_of_mem a hb)
      exact ih (Reachable.step a ρ hs ha hρ) htl

/-- The paddle-bounds invariant the spec asserts: vertical position within
`[topBoundary, bottomBoundary − height]`. -/
def InBounds (p : RectBody) : Prop :=
  Constants.topBound ≤ p.yPos ∧
    p.yPos ≤ jssub (jssub Constants.canvasBottom Constants.bottomBound) p.ySize

instance (p : RectBody) : Decidable (InBounds p) := by
  unfold InBounds; infer_instance

/-- The all-zero random record (a legal draw). -/
def rand0 : Rand := ⟨0, 0, 0, 0⟩

/-! ## Helper lemmas -/

theorem playerPaddle_yPos (p v e l : ℚ) : (playerPaddle p v e l).yPos = p := rfl

theorem playerPaddle_yVel (p v e l : ℚ) : (playerPaddle p v e l).yVel = v := rfl

theorem playerPaddle_energy (p v e l : ℚ) : (playerPaddle p v e l).energy = e := rfl

theorem playerPaddle_ySize (p v e l : ℚ) : (playerPaddle p v e l).ySize = l := rfl

theorem aiPaddle_yPos (p v e l : ℚ) : (aiPaddle p v e l).yPos = p := rfl

theorem aiPaddle_yVel (p v e l : ℚ) : (aiPaddle p v e l).yVel = v := rfl

theorem aiPaddle_energy (p v e l : ℚ) : (aiPaddle p v e l).energy = e := rfl

theorem aiPaddle_ySize (p v e l : ℚ) : (aiPaddle p v e l).ySize = l := rfl

/-- Function `movingPaddleState` keeps a paddle inside the walls: if the incoming
paddle satisfies the bounds invariant, so does the moved paddle, for every
requested velocity. -/
theorem movingPaddleState_inBounds (person : ℚ → ℚ → ℚ → ℚ → RectBody)
    (hy : ∀ p v e l, (person p v e l).yPos = p)
    (hl : ∀ p v e l, (person p v e l).ySize = l)
    (paddle : RectBody) (vel : ℚ) (h : InBounds paddle) :
    InBounds (movingPaddleState person paddle vel Constants.topBound
      (jssub Constants.canvasBottom Constants.bottomBound)) := by
  obtain ⟨h1, h2⟩ := h
  simp only [InBounds, jssub_eq] at h1 h2 ⊢
  simp only [movingPaddleState, jssub_eq, jsadd_eq]
  split_ifs with hA hB hC
  · simp only [hy, hl]
    exact ⟨le_refl _, by linarith⟩
  · simp only [hy, hl]
    exact ⟨by linarith, le_refl _⟩
  · simp only [hy, hl]
    constructor
    · rcases lt_or_le (paddle.yPos + vel) Constants.topBound with hlt | hle
      · exfalso
        exact hB ⟨hlt, by linarith⟩
      · exact hle
    · rcases lt_or_le (Constants.canvasBottom - Constants.bottomBound -
          paddle.ySize) (paddle.yPos + vel) with hgt | hle
      · exfalso
        exact hC ⟨hgt, by linarith⟩
      · exact hle
  · simp only [hy, hl]
    exact ⟨h1, h2⟩

/-- Function `movingPaddleState` never changes the energy field. -/
theorem movingPaddleState_energy (person : ℚ → ℚ → ℚ → ℚ → RectBody)
    (he : ∀ p v e l, (person p v e l).energy = e)
    (paddle : RectBody) (vel top bottomWall : ℚ) :
    (movingPaddleState person paddle vel top bottomWall).energy =
      paddle.energy := by
  simp only [movingPaddleState]
  split_ifs <;> rw [he]

/-- The AI controller always answers with a `Movement`. -/
theorem followBall_shape (paddle : RectBody) (b : CircleBody) :
    ∃ v : ℚ, followBall paddle b = .Movement v 0 := by
  simp only [followBall]
  split_ifs <;> exact ⟨_, rfl⟩

/-- The default player paddle position/size is inside the walls, whatever
energy it is given. -/
theorem inBounds_defaultPlayer (e : ℚ) :
    InBounds (playerPaddle defaultPlayerPaddleState.yPos
      defaultPlayerPaddleState.yVel e defaultPlayerPaddleState.ySize) := by
  constructor <;>
    norm_num [InBounds, playerPaddle, genericPaddle, defaultPlayerPaddleState,
      createDefaultPaddleState, halfway, jssub_eq, jsadd_eq, jsdiv_eq,
      Constants.topBound, Constants.canvasBottom, Constants.bottomBound,
      Constants.paddleYWidth, Constants.sideBound, Constants.startingEnergy]

/-- The default AI paddle position/size is inside the walls, whatever
energy it is given. -/
theorem inBounds_defaultAi (e : ℚ) :
    InBounds (aiPaddle defaultAiPaddleState.yPos
      defaultAiPaddleState.yVel e defaultAiPaddleState.ySize) := by
  constructor <;>
    norm_num [InBounds, aiPaddle, genericPaddle, defaultAiPaddleState,
      createDefaultPaddleState, halfway, jssub_eq, jsadd_eq, jsdiv_eq,
      Constants.topBound, Constants.canvasBottom, Constants.bottomBound,
      Constants.paddleYWidth, Constants.sideBound, Constants.canvasRight,
      Constants.paddleXWidth, Constants.startingEnergy]

/-! ## Claim C6: top/bottom wall reflection -/

/-- A ball touching the top wall while moving up, away from the side walls
(concrete input for C6). -/
def bTop : CircleBody := ball 100 15 5 (-3) none 10

/-- Claim C6 (counterexample): the claim says the wall bounce repositions
the ball by subtracting the current velocity from the position; on the ball
(100, 15) with velocity (5, −3) touching the top wall, the code moves the
ball to x = 105 = 100 + 5 (the horizontal velocity is added, not
subtracted), not to x = 95. -/
theorem c6_wall_bounce_counterexample :
    (movingBallState bTop defaultPlayerPaddleState defaultAiPaddleState 0 0).xPos
        = 105 ∧
    (movingBallState bTop defaultPlayerPaddleState defaultAiPaddleState 0 0).yPos
        = 18 ∧
    ¬ ((movingBallState bTop defaultPlayerPaddleState defaultAiPaddleState 0 0).xPos
        = jssub bTop.xPos bTop.xVel) := by
  decide

/-- Claim C6 (amended): for every ball touching the top or bottom wall while
moving into that wall and not touching a side wall, the ball-physics step
negates the vertical velocity, subtracts the current vertical velocity from
the vertical position, adds the horizontal velocity to the horizontal
position, and leaves the horizontal velocity unchanged. -/
theorem c6_wall_bounce_amended (b : CircleBody) (player cpu : RectBody)
    (r1 r2 : ℚ)
    (hL : Constants.sideBound < b.xPos - b.radius)
    (hR : b.xPos + b.radius < Constants.canvasRight - Constants.sideBound)
    (hTB : (b.yPos - b.radius ≤ Constants.topBound ∧ b.yVel < 0) ∨
           (Constants.canvasBottom - Constants.bottomBound ≤ b.yPos + b.radius ∧
             0 < b.yVel)) :
    movingBallState b player cpu r1 r2 =
      ball (b.xPos + b.xVel) (b.yPos - b.yVel) b.xVel (-b.yVel) none
        Constants.ballRadius := by
  simp only [movingBallState, jsadd_eq, jssub_eq, jsmul_eq]
  rw [if_neg (not_le.mpr hL), if_neg (not_le.mpr hR), if_pos hTB]
  norm_num

/-- Claim C6 (witness for the amended theorem). -/
theorem c6_wall_bounce_amended_witness :
    movingBallState bTop defaultPlayerPaddleState defaultAiPaddleState 0 0 =
      ball (bTop.xPos + bTop.xVel) (bTop.yPos - bTop.yVel) bTop.xVel
        (-bTop.yVel) none Constants.ballRadius :=
  c6_wall_bounce_amended bTop defaultPlayerPaddleState defaultAiPaddleState 0 0
    (by norm_num [bTop, ball, Constants.sideBound])
    (by norm_num [bTop, ball, Constants.canvasRight, Constants.sideBound])
    (Or.inl (by norm_num [bTop, ball, Constants.topBound]))

/-! ## Claim C7: the paddle-reflection scenario -/

/-- The ball of the C7 scenario: at canvas centre with velocity (−5, 0). -/
def b450 : CircleBody := ball 450 300 (-5) 0 none 10

/-- The player paddle of the C7 scenario, spanning y[255, 345]. -/
def pl255 : RectBody := playerPaddle 255 0 4 90

/-- Claim C7 (counterexample): a ball at the canvas centre (450, 300) is
nowhere near the player paddle (x ∈ [30, 50]), so the physics step does not
reflect it: the resulting horizontal velocity is still −5, not +5. -/
theorem c7_paddle_reflect_counterexample :
    (movingBallState b450 pl255 defaultAiPaddleState 0 0).xVel = -5 ∧
    (movingBallState b450 pl255 defaultAiPaddleState 0 0).xPos = 445 ∧
    ¬ ((movingBallState b450 pl255 defaultAiPaddleState 0 0).xVel = 5) := by
  decide

/-- Claim C7 (amended): for a ball actually touching the player paddle -
at (55, 300) with velocity (−5, 0), the paddle spanning y[255, 345] with
centreline 300 - the step reverses the horizontal direction (new horizontal
velocity +5) and computes the vertical velocity `8·r2 + |offset|/8 = 8·r2`
(offset 0 here), for any random draws. -/
theorem c7_paddle_reflect_amended (cpu : RectBody) (r1 r2 : ℚ) :
    movingBallState (ball 55 300 (-5) 0 none 10) pl255 cpu r1 r2 =
      ball 60 (300 + 8 * r1) 5 (8 * r2) none Constants.ballRadius := by
  simp only [movingBallState, calculateBallVel, ball, pl255, playerPaddle,
    genericPaddle, jsadd_eq, jssub_eq, jsmul_eq, jsdiv_eq, jsneg_eq,
    Constants.sideBound, Constants.canvasRight, Constants.canvasBottom,
    Constants.topBound, Constants.bottomBound, Constants.ballBaseYSpeed,
    Constants.paddleXWidth, Constants.ballRadius]
  norm_num

/-! ## Claim C8: paddle clamping -/

/-- Claim C8: a paddle at vertical position 0 receiving `Move(−5)` stays at
position 0 with velocity 0; and in general, from any in-bounds position, a
candidate move that would cross a boundary while moving further into it
ends at that boundary with velocity 0. -/
theorem c8_clamp :
    ((makePaddleState playerPaddle (playerPaddle 0 0 4 90) (.Movement (-5) 0)
        (ball 450 300 0 0 none 10)).yPos = 0 ∧
     (makePaddleState playerPaddle (playerPaddle 0 0 4 90) (.Movement (-5) 0)
        (ball 450 300 0 0 none 10)).yVel = 0) ∧
    (∀ (person : ℚ → ℚ → ℚ → ℚ → RectBody) (paddle : RectBody) (v : ℚ),
      (∀ p vv e l, (person p vv e l).yPos = p) →
      (∀ p vv e l, (person p vv e l).yVel = vv) →
      InBounds paddle →
      (v < 0 → paddle.yPos + v < Constants.topBound →
        (movingPaddleState person paddle v Constants.topBound
          (jssub Constants.canvasBottom Constants.bottomBound)).yPos =
            Constants.topBound ∧
        (movingPaddleState person paddle v Constants.topBound
          (jssub Constants.canvasBottom Constants.bottomBound)).yVel = 0) ∧
      (0 < v →
        (Constants.canvasBottom - Constants.bottomBound) - paddle.ySize <
          paddle.yPos + v →
        (movingPaddleState person paddle v Constants.topBound
          (jssub Constants.canvasBottom Constants.bottomBound)).yPos =
            (Constants.canvasBottom - Constants.bottomBound) - paddle.ySize ∧
        (movingPaddleState person paddle v Constants.topBound
          (jssub Constants.canvasBottom Constants.bottomBound)).yVel = 0)) := by
  constructor
  · decide
  · intro person paddle v hy hv hIn
    obtain ⟨h1, h2⟩ := hIn
    simp only [InBounds, jssub_eq] at h1 h2
    constructor
    · intro hneg hcross
      simp only [movingPaddleState, jssub_eq, jsadd_eq]
      split_ifs with hA hB hC
      · exact ⟨hy _ _ _ _, hv _ _ _ _⟩
      · exact absurd ⟨hcross, hneg⟩ hB
      · exact absurd ⟨hcross, hneg⟩ hB
      · -- here the paddle sits exactly on the top boundary
        have hpt : paddle.yPos = Constants.topBound := by
          rcases eq_or_lt_of_le h1 with heq | hlt
          · exact heq.symm
          · exfalso
            rcases lt_or_le paddle.yPos
                (Constants.canvasBottom - Constants.bottomBound - paddle.ySize)
              with hb | hb
            · exact hA (Or.inl ⟨hlt, hb⟩)
            · exact hA (Or.inr (Or.inr ⟨hb, le_of_lt hneg⟩))
        rw [hy, hv, hpt]
        exact ⟨rfl, rfl⟩
    · intro hpos hcross
      simp only [movingPaddleState, jssub_eq, jsadd_eq]
      split_ifs with hA hB hC
      · exact absurd hpos (not_lt.mpr (le_of_lt hB.2))
      · exact ⟨hy _ _ _ _, hv _ _ _ _⟩
      · exact absurd ⟨hcross, hpos⟩ hC
      · -- here the paddle sits exactly on the bottom boundary
        have hpb : paddle.yPos =
            Constants.canvasBottom - Constants.bottomBound - paddle.ySize := by
          rcases eq_or_lt_of_le h2 with heq | hlt
          · exact heq
          · exfalso
            rcases lt_or_le Constants.topBound paddle.yPos with ht | ht
            · exact hA (Or.inl ⟨ht, hlt⟩)
            · exact hA (Or.inr (Or.inl ⟨ht, le_of_lt hpos⟩))
        rw [hy, hv, hpb]
        exact ⟨rfl, rfl⟩

/-- Claim C8 (witness): the general clamped cases of `c8_clamp`
instantiated at a concrete crossing move on each boundary. -/
theorem c8_clamp_witness :
    ((movingPaddleState playerPaddle (playerPaddle 255 0 4 90) (-250)
        Constants.topBound
        (jssub Constants.canvasBottom Constants.bottomBound)).yPos =
          Constants.topBound ∧
     (movingPaddleState playerPaddle (playerPaddle 255 0 4 90) (-250)
        Constants.topBound
        (jssub Constants.canvasBottom Constants.bottomBound)).yVel = 0) ∧
    ((movingPaddleState playerPaddle (playerPaddle 255 0 4 90) 250
        Constants.topBound
        (jssub Constants.canvasBottom Constants.bottomBound)).yPos =
          (Constants.canvasBottom - Constants.bottomBound) -
            (playerPaddle 255 0 4 90).ySize ∧
     (movingPaddleState playerPaddle (playerPaddle 255 0 4 90) 250
        Constants.topBound
        (jssub Constants.canvasBottom Constants.bottomBound)).yVel = 0) := by
  constructor
  · exact ((c8_clamp.2 playerPaddle (playerPaddle 255 0 4 90) (-250)
      (fun _ _ _ _ => rfl) (fun _ _ _ _ => rfl) (by decide)).1
        (by norm_num)
        (by norm_num [playerPaddle, genericPaddle, Constants.topBound]))
  · exact ((c8_clamp.2 playerPaddle (playerPaddle 255 0 4 90) 250
      (fun _ _ _ _ => rfl) (fun _ _ _ _ => rfl) (by decide)).2
        (by norm_num)
        (by norm_num [playerPaddle, genericPaddle, Constants.canvasBottom,
          Constants.bottomBound]))

/-! ## Claim C9: the shrink ray has no lower bound -/

/-- A legal game state whose player holds 6 energy (enough for six funded
shrink actions in a row). -/
def s6 : State :=
  createState (playerPaddle 255 0 6 90) defaultAiPaddleState
    (ball 450 300 0 0 none 10) (playerScore 0) (aiScore 0) (playerEnergy 6)
    none

/-- Claim C9: a `PaddleShrink` action reduces the target paddle's height by
exactly the shrink amount, with no lower bound and no energy check on the
shrunk paddle itself (the equation holds for every energy value and passes
the energy through unchanged); and six consecutive energy-funded shrink
events drive the AI paddle's height to 0. -/
theorem c9_shrink :
    (∀ (person : ℚ → ℚ → ℚ → ℚ → RectBody) (prev : RectBody)
        (b : CircleBody) (sz : ℚ),
      makePaddleState person prev (.PaddleShrink sz) b =
        person prev.yPos prev.yVel prev.energy (jssub prev.ySize sz)) ∧
    ((runTrace s6 (List.replicate 6 (.PaddleShrink 15)) rand0).paddleTwo.ySize
        = 0 ∧
     (runTrace s6 (List.replicate 6 (.PaddleShrink 15)) rand0).paddleTwo.ySize
        ≤ 0 ∧
     (runTrace s6 (List.replicate 6 (.PaddleShrink 15)) rand0).playerEnergy.numeric
        = 0) :=
  ⟨fun _ _ _ _ => rfl, by decide⟩

/-! ## Claim C10: teleport copies the ball's position and velocity -/

/-- Claim C10: with energy available, `Teleport` sets the paddle's vertical
position to the ball's vertical position AND its vertical velocity to the
ball's vertical velocity, decrements the energy by 1, and keeps the height
unchanged - both at the `makePaddleState` level and through the reducer. -/
theorem c10_teleport :
    (∀ (person : ℚ → ℚ → ℚ → ℚ → RectBody) (prev : RectBody) (b : CircleBody),
      0 < prev.energy →
      makePaddleState person prev .Teleport b =
        person b.yPos b.yVel (jssub prev.energy 1) prev.ySize) ∧
    (∀ (s : State) (ρ : Rand),
      0 < s.playerEnergy.numeric → 0 < s.paddleOne.energy →
      (gameReducer s .Teleport ρ).paddleOne.yPos = s.ball.yPos ∧
      (gameReducer s .Teleport ρ).paddleOne.yVel = s.ball.yVel ∧
      (gameReducer s .Teleport ρ).paddleOne.energy = s.paddleOne.energy - 1 ∧
      (gameReducer s .Teleport ρ).paddleOne.ySize = s.paddleOne.ySize) := by
  constructor
  · intro person prev b he
    simp only [makePaddleState, if_pos he]
  · intro s ρ hnum hpad
    have hcond : growOrTeleport Actions.Teleport = true ∧
        0 < s.playerEnergy.numeric := ⟨rfl, hnum⟩
    unfold gameReducer
    rw [if_pos hcond]
    simp only [createStandardParseState, createState, makePaddleState,
      if_pos hpad, playerPaddle_yPos, playerPaddle_yVel, playerPaddle_energy,
      playerPaddle_ySize, jssub_eq]
    simp

/-- Claim C10 (witness). -/
theorem c10_teleport_witness :
    makePaddleState playerPaddle (playerPaddle 255 0 4 90) .Teleport
        (ball 450 333 5 7 none 10) =
      playerPaddle 333 7 (jssub 4 1) 90 ∧
    (gameReducer s6 .Teleport rand0).paddleOne.yPos = 300 := by
  constructor
  · exact c10_teleport.1 playerPaddle (playerPaddle 255 0 4 90)
      (ball 450 333 5 7 none 10) (by decide)
  · have h := (c10_teleport.2 s6 rand0 (by decide) (by decide)).1
    rw [h]
    decide

/-! ## Claims C3, C4, C5: scoring and winning branches -/

/-- Claim C4 (amended): when the incoming ball carries the player-scored
marker and no ability branch applies, the reducer resets both paddles to
their default position and size preserving each paddle's energy (the player
paddle's energy is taken from the energy display, equal to the paddle's own
energy in any synchronised state), resets the ball to the centre moving
toward the PLAYER (negative x velocity) with a fresh randomized vertical
velocity, increments the player's score by exactly 1, and leaves the
player's energy unchanged. -/
theorem c4_player_scored_amended (s : State) (a : Actions) (ρ : Rand)
    (hA : ¬(growOrTeleport a = true ∧ 0 < s.playerEnergy.numeric))
    (hB : shrinkAction a = false)
    (hp : s.ball.scoreUpdate = some .p)
    (hsync : s.paddleOne.energy = s.playerEnergy.numeric) :
    (gameReducer s a ρ).paddleOne =
      playerPaddle defaultPlayerPaddleState.yPos 0 s.paddleOne.energy
        Constants.paddleYWidth ∧
    (gameReducer s a ρ).paddleTwo =
      aiPaddle defaultAiPaddleState.yPos 0 s.paddleTwo.energy
        Constants.paddleYWidth ∧
    (gameReducer s a ρ).ball = defaultBallState1 ρ.rCoin ρ.rMag ∧
    (gameReducer s a ρ).ball.xVel = -5 ∧
    (gameReducer s a ρ).ball.xPos = 450 ∧
    (gameReducer s a ρ).ball.yPos = 300 ∧
    (gameReducer s a ρ).ball.scoreUpdate = none ∧
    (gameReducer s a ρ).scoreOne.numeric = s.scoreOne.numeric + 1 ∧
    (gameReducer s a ρ).scoreTwo = s.scoreTwo ∧
    (gameReducer s a ρ).playerEnergy.numeric = s.playerEnergy.numeric := by
  have hB' : ¬ (shrinkAction a = true) := by rw [hB]; exact Bool.false_ne_true
  unfold gameReducer
  rw [if_neg hA, if_neg hB', if_pos hp]
  refine ⟨?_, ?_, rfl, ?_, ?_, ?_, ?_, ?_, rfl, rfl⟩
  · simp [createState, hsync, defaultPlayerPaddleState, createDefaultPaddleState,
      playerPaddle, genericPaddle, Constants.paddleYWidth]
  · simp [createState, defaultAiPaddleState, createDefaultPaddleState,
      aiPaddle, genericPaddle, Constants.paddleYWidth]
  · simp [createState, defaultBallState1, genericDefaultBall, ball,
      jsmul_eq, jsdiv_eq, Constants.ballBaseXSpeed]
  · simp [createState, defaultBallState1, genericDefaultBall, ball,
      jsdiv_eq, Constants.canvasRight]
    norm_num
  · simp [createState, defaultBallState1, genericDefaultBall, ball,
      jsdiv_eq, Constants.canvasBottom]
    norm_num
  · simp [createState, defaultBallState1, genericDefaultBall, ball]
  · simp [createState, changePlayerScore, changeScore, playerScore, jsadd_eq]

/-- Claim C4 (counterexample): a concrete state whose ball carries the
player-scored marker (frozen at the right wall, as the collision step
leaves it). -/
def sP : State :=
  createState defaultPlayerPaddleState defaultAiPaddleState
    (ball 880 300 0 0 (some .p) 10) (playerScore 0) (aiScore 0)
    (playerEnergy 4) none

/-- Claim C4 (counterexample): the claim says the ball is reset "moving
toward the cpu"; the cpu paddle sits on the right side of the canvas, but
the reset ball (`defaultBallState1()`) moves LEFT, toward the player:
its horizontal velocity is −5, not positive. -/
theorem c4_player_scored_counterexample :
    (gameReducer sP .Tick rand0).ball.xVel = -5 ∧
    ¬ (0 < (gameReducer sP .Tick rand0).ball.xVel) := by
  decide

/-- Claim C5: when the incoming ball carries the cpu-scored marker and no
ability branch applies, the reducer increments the cpu's score by exactly 1,
increases the player's energy by exactly 1 (display and paddle), and
preserves the cpu paddle's energy from the previous cpu paddle rather than
resetting it to the starting energy. -/
theorem c5_cpu_scored (s : State) (a : Actions) (ρ : Rand)
    (hA : ¬(growOrTeleport a = true ∧ 0 < s.playerEnergy.numeric))
    (hB : shrinkAction a = false)
    (hc : s.ball.scoreUpdate = some .c) :
    (gameReducer s a ρ).scoreTwo.numeric = s.scoreTwo.numeric + 1 ∧
    (gameReducer s a ρ).scoreOne = s.scoreOne ∧
    (gameReducer s a ρ).playerEnergy.numeric = s.playerEnergy.numeric + 1 ∧
    (gameReducer s a ρ).paddleOne.energy = s.playerEnergy.numeric + 1 ∧
    (gameReducer s a ρ).paddleTwo.energy = s.paddleTwo.energy := by
  have hB' : ¬ (shrinkAction a = true) := by rw [hB]; exact Bool.false_ne_true
  have hp' : ¬ (s.ball.scoreUpdate = some .p) := by
    rw [hc]; intro hcontra
    exact Scorer.noConfusion (Option.some.injEq _ _ ▸ hcontra)
  unfold gameReducer
  rw [if_neg hA, if_neg hB', if_neg hp', if_pos hc]
  refine ⟨?_, rfl, ?_, ?_, ?_⟩
  · simp [createState, changeCpuScore, changeScore, aiScore, jsadd_eq]
  · simp [createState, playerEnergy, jsadd_eq]
  · simp [createState, playerPaddle, genericPaddle, jsadd_eq]
  · simp [createState, aiPaddle, genericPaddle]

/-- Claim C5 (witness). -/
theorem c5_cpu_scored_witness :
    (gameReducer
        (createState (playerPaddle 255 0 2 90) (aiPaddle 255 0 3 90)
          (ball 20 341 0 0 (some .c) 10) (playerScore 1) (aiScore 4)
          (playerEnergy 2) none) .Tick rand0).scoreTwo.numeric = 4 + 1 ∧
    (gameReducer
        (createState (playerPaddle 255 0 2 90) (aiPaddle 255 0 3 90)
          (ball 20 341 0 0 (some .c) 10) (playerScore 1) (aiScore 4)
          (playerEnergy 2) none) .Tick rand0).playerEnergy.numeric = 2 + 1 ∧
    (gameReducer
        (createState (playerPaddle 255 0 2 90) (aiPaddle 255 0 3 90)
          (ball 20 341 0 0 (some .c) 10) (playerScore 1) (aiScore 4)
          (playerEnergy 2) none) .Tick rand0).paddleTwo.energy = 3 := by
  obtain ⟨h1, _h2, h3, _h4, h5⟩ := c5_cpu_scored
    (createState (playerPaddle 255 0 2 90) (aiPaddle 255 0 3 90)
      (ball 20 341 0 0 (some .c) 10) (playerScore 1) (aiScore 4)
      (playerEnergy 2) none) .Tick rand0
    (by decide) (by decide) (by decide)
  refine ⟨?_, ?_, ?_⟩
  · rw [h1]; norm_num [createState, aiScore]
  · rw [h3]; norm_num [createState, playerEnergy]
  · rw [h5]; norm_num [createState, aiPaddle, genericPaddle]

/-- Claim C3 (amended): with no scoring marker pending and no ability branch
applying, a reducer step from a state whose score stands at the winning
threshold produces the end state: winner set for that side, ball frozen
(velocity (0,0)) at the canvas centre, scores unchanged and no marker - so
the winner stays set under all further such events.  (The counterexample
shows an energy-funded ability clears the winner for one step, which is why
those events are excluded.) -/
theorem c3_winner_amended (s : State) (a : Actions) (ρ : Rand)
    (hA : ¬(growOrTeleport a = true ∧ 0 < s.playerEnergy.numeric))
    (hB : shrinkAction a = false)
    (hm : s.ball.scoreUpdate = none) :
    (s.scoreOne.numeric = Constants.winningScore →
      (gameReducer s a ρ).winnerIs = some .p ∧
      (gameReducer s a ρ).ball.xVel = 0 ∧
      (gameReducer s a ρ).ball.yVel = 0 ∧
      (gameReducer s a ρ).ball.xPos = 450 ∧
      (gameReducer s a ρ).ball.yPos = 300 ∧
      (gameReducer s a ρ).ball.scoreUpdate = none ∧
      (gameReducer s a ρ).scoreOne = s.scoreOne ∧
      (gameReducer s a ρ).scoreTwo = s.scoreTwo) ∧
    (s.scoreOne.numeric ≠ Constants.winningScore →
      s.scoreTwo.numeric = Constants.winningScore →
      (gameReducer s a ρ).winnerIs = some .c ∧
      (gameReducer s a ρ).ball.xVel = 0 ∧
      (gameReducer s a ρ).ball.yVel = 0 ∧
      (gameReducer s a ρ).ball.xPos = 450 ∧
      (gameReducer s a ρ).ball.yPos = 300 ∧
      (gameReducer s a ρ).ball.scoreUpdate = none ∧
      (gameReducer s a ρ).scoreOne = s.scoreOne ∧
      (gameReducer s a ρ).scoreTwo = s.scoreTwo) := by
  have hB' : ¬ (shrinkAction a = true) := by rw [hB]; exact Bool.false_ne_true
  have hp' : ¬ (s.ball.scoreUpdate = some .p) := by
    rw [hm]; exact Option.noConfusion
  have hc' : ¬ (s.ball.scoreUpdate = some .c) := by
    rw [hm]; exact Option.noConfusion
  constructor
  · intro h7
    unfold gameReducer
    rw [if_neg hA, if_neg hB', if_neg hp', if_neg hc', if_pos h7]
    refine ⟨rfl, ?_, ?_, ?_, ?_, rfl, rfl, rfl⟩ <;>
      norm_num [createEndState, createState, defaultStillBall,
        genericDefaultBall, ball, jsmul_eq, jsdiv_eq,
        Constants.ballBaseXSpeed, Constants.canvasRight, Constants.canvasBottom]
  · intro h7 h7'
    unfold gameReducer
    rw [if_neg hA, if_neg hB', if_neg hp', if_neg hc', if_neg h7, if_pos h7']
    refine ⟨rfl, ?_, ?_, ?_, ?_, rfl, rfl, rfl⟩ <;>
      norm_num [createEndState, createState, defaultStillBall,
        genericDefaultBall, ball, jsmul_eq, jsdiv_eq,
        Constants.ballBaseXSpeed, Constants.canvasRight, Constants.canvasBottom]

/-- Claim C3 (counterexample): a state whose player score stands at the
winning threshold with an unmarked centred ball. -/
def s7 : State :=
  createState defaultPlayerPaddleState defaultAiPaddleState
    (ball 450 300 0 0 none 10) (playerScore 7) (aiScore 0) (playerEnergy 4)
    none

/-- Claim C3 (counterexample): after the winner marker is set (state
`gameReducer s7 Tick`), an energy-funded `PaddleGrowth` event produces a
state whose winner marker is CLEARED (`createStandardParseState` rebuilds
the state with the default `null` winner), refuting "for every subsequent
event the winner marker stays set until an external restart". -/
theorem c3_winner_counterexample :
    (gameReducer s7 .Tick rand0).winnerIs = some .p ∧
    (gameReducer s7 .Tick rand0).scoreOne.numeric = Constants.winningScore ∧
    (gameReducer s7 .Tick rand0).playerEnergy.numeric = 4 ∧
    EmittableAction (.PaddleGrowth 30) ∧
    (gameReducer (gameReducer s7 .Tick rand0) (.PaddleGrowth 30) rand0).winnerIs
      = none := by
  decide

/-- Claim C3 (witness for the amended theorem). -/
theorem c3_winner_amended_witness :
    (gameReducer s7 .Tick rand0).winnerIs = some .p ∧
    (gameReducer s7 .Tick rand0).ball.xVel = 0 := by
  obtain ⟨h, hx, _⟩ := (c3_winner_amended s7 .Tick rand0 (by decide) (by decide)
    (by decide)).1 (by decide)
  exact ⟨h, hx⟩

/-- Claim C4 (witness for the amended theorem). -/
theorem c4_player_scored_amended_witness :
    (gameReducer sP .Tick rand0).ball.xVel = -5 ∧
    (gameReducer sP .Tick rand0).scoreOne.numeric = 0 + 1 ∧
    (gameReducer sP .Tick rand0).playerEnergy.numeric = 4 := by
  obtain ⟨_, _, _, hx, _, _, _, hs, _, he⟩ :=
    c4_player_scored_amended sP .Tick rand0 (by decide) (by decide) (by decide)
      (by decide)
  refine ⟨hx, ?_, ?_⟩
  · rw [hs]; norm_num [sP, createState, playerScore]
  · rw [he]; norm_num [sP, createState, playerEnergy]

/-! ## Claim C1: paddle bounds -/

/-- Function `makePaddleState` keeps the paddle inside the walls for every action
except an energy-funded `PaddleGrowth` or `Teleport` (and a shrink with a
nonnegative amount only loosens the bound). -/
theorem makePaddleState_inBounds (person : ℚ → ℚ → ℚ → ℚ → RectBody)
    (hy : ∀ p v e l, (person p v e l).yPos = p)
    (hl : ∀ p v e l, (person p v e l).ySize = l)
    (prev : RectBody) (a : Actions) (b : CircleBody) (h : InBounds prev)
    (ha : (∀ sz, a ≠ .PaddleGrowth sz) ∧ a ≠ .Teleport ∧
      (∀ sz, a = .PaddleShrink sz → 0 ≤ sz)) :
    InBounds (makePaddleState person prev a b) := by
  obtain ⟨hg, ht, hs⟩ := ha
  cases a with
  | Movement y x =>
      exact movingPaddleState_inBounds person hy hl prev y h
  | PaddleGrowth sz => exact absurd rfl (hg sz)
  | Teleport => exact absurd rfl ht
  | Drain =>
      simp only [makePaddleState]
      split_ifs with he
      · obtain ⟨h1, h2⟩ := h
        exact ⟨by rw [hy]; exact h1, by rw [hy, hl]; exact h2⟩
      · exact movingPaddleState_inBounds person hy hl prev prev.yVel h
  | PaddleShrink sz =>
      have hsz : 0 ≤ sz := hs sz rfl
      obtain ⟨h1, h2⟩ := h
      simp only [InBounds, jssub_eq] at h1 h2 ⊢
      simp only [makePaddleState, hy, hl, jssub_eq]
      exact ⟨h1, by linarith⟩
  | Tick =>
      exact movingPaddleState_inBounds person hy hl prev prev.yVel h

/-- Claim C1 (amended): for every state whose paddles are in bounds and
every emitted event other than a `PaddleGrowth` or `Teleport`, both paddles
of the reducer's output are again within
[topBoundary, bottomBoundary − height].  (The counterexample shows
energy-funded Grow and Teleport actions can violate the bounds.) -/
theorem c1_paddle_bounds_amended (s : State) (a : Actions) (ρ : Rand)
    (h1 : InBounds s.paddleOne) (h2 : InBounds s.paddleTwo)
    (ha : EmittableAction a) (hgt : growOrTeleport a = false) :
    InBounds ((gameReducer s a ρ).paddleOne) ∧
      InBounds ((gameReducer s a ρ).paddleTwo) := by
  have hyP : ∀ p v e l, (playerPaddle p v e l).yPos = p := fun _ _ _ _ => rfl
  have hlP : ∀ p v e l, (playerPaddle p v e l).ySize = l := fun _ _ _ _ => rfl
  have hyA : ∀ p v e l, (aiPaddle p v e l).yPos = p := fun _ _ _ _ => rfl
  have hlA : ∀ p v e l, (aiPaddle p v e l).ySize = l := fun _ _ _ _ => rfl
  have hAneg : ¬(growOrTeleport a = true ∧ 0 < s.playerEnergy.numeric) := by
    rw [hgt]; rintro ⟨hfalse, -⟩; exact Bool.false_ne_true hfalse
  have hgrow : ∀ sz, a ≠ .PaddleGrowth sz := by
    intro sz hcontra; subst hcontra; simp [growOrTeleport] at hgt
  have htel : a ≠ .Teleport := by
    intro hcontra; subst hcontra; simp [growOrTeleport] at hgt
  have hfollow : ∀ (p : RectBody) (bb : CircleBody),
      InBounds p → InBounds (makePaddleState aiPaddle p (followBall p bb) bb) := by
    intro p bb hp
    obtain ⟨v, hv⟩ := followBall_shape p bb
    rw [hv]
    exact movingPaddleState_inBounds aiPaddle hyA hlA p v hp
  unfold gameReducer
  rw [if_neg hAneg]
  by_cases hsh : shrinkAction a = true
  · -- shrink action
    have hsz : a = .PaddleShrink Constants.paddleShrinkAbility := by
      cases a <;> simp_all [shrinkAction, emittable, EmittableAction]
    rw [if_pos hsh]
    split_ifs with hen
    · subst hsz
      constructor
      · -- player paddle gets a Drain
        exact makePaddleState_inBounds playerPaddle hyP hlP s.paddleOne .Drain
          s.ball h1 ⟨fun _ => Actions.noConfusion, Actions.noConfusion,
            fun _ h => Actions.noConfusion h⟩
      · -- ai paddle gets the shrink
        exact makePaddleState_inBounds aiPaddle hyA hlA s.paddleTwo
          (.PaddleShrink Constants.paddleShrinkAbility) s.ball h2
          ⟨fun _ => Actions.noConfusion, Actions.noConfusion,
            fun sz hsz2 => by
              cases hsz2
              norm_num [Constants.paddleShrinkAbility]⟩
    · -- no energy: a stop-movement tick
      constructor
      · exact makePaddleState_inBounds playerPaddle hyP hlP s.paddleOne
          (.Movement 0 0) s.ball h1 ⟨fun _ => Actions.noConfusion,
            Actions.noConfusion, fun _ h => Actions.noConfusion h⟩
      · exact hfollow s.paddleTwo s.ball h2
  · rw [if_neg hsh]
    by_cases hp : s.ball.scoreUpdate = some .p
    · rw [if_pos hp]
      exact ⟨inBounds_defaultPlayer _, inBounds_defaultAi _⟩
    · rw [if_neg hp]
      by_cases hc : s.ball.scoreUpdate = some .c
      · rw [if_pos hc]
        exact ⟨inBounds_defaultPlayer _, inBounds_defaultAi _⟩
      · rw [if_neg hc]
        by_cases hw1 : s.scoreOne.numeric = Constants.winningScore
        · rw [if_pos hw1]
          exact ⟨inBounds_defaultPlayer _, inBounds_defaultAi _⟩
        · rw [if_neg hw1]
          by_cases hw2 : s.scoreTwo.numeric = Constants.winningScore
          · rw [if_pos hw2]
            exact ⟨inBounds_defaultPlayer _, inBounds_defaultAi _⟩
          · rw [if_neg hw2]
            have hshrink : ∀ sz, a = .PaddleShrink sz → (0:ℚ) ≤ sz := by
              intro sz hcontra
              subst hcontra
              exact absurd rfl hsh
            exact ⟨makePaddleState_inBounds playerPaddle hyP hlP s.paddleOne a
                s.ball h1 ⟨hgrow, htel, hshrink⟩,
              hfollow s.paddleTwo s.ball h2⟩

/-- Claim C1 (witness for the amended theorem). -/
theorem c1_paddle_bounds_amended_witness :
    InBounds ((gameReducer (defaultEverythingState rand0) .Tick rand0).paddleOne) ∧
      InBounds ((gameReducer (defaultEverythingState rand0) .Tick rand0).paddleTwo) :=
  c1_paddle_bounds_amended (defaultEverythingState rand0) .Tick rand0
    (by decide) (by decide) (by decide) rfl

/-- The random draws of the C1 trace: the initial serve takes the
`rCoin > 0.5` branch with magnitude 7/8, giving the ball the vertical
velocity `round(8·(7/8)/2) = round(3.5) = 4`. -/
def rhoC1 : Rand := ⟨0, 0, jsdiv 3 4, jsdiv 7 8⟩

/-- After 51 ticks from the initial state the ball has reached
(705, 504): below the lowest legal paddle position 500. -/
def c1Bad : State :=
  runTrace (defaultEverythingState rhoC1) (List.replicate 51 .Tick) rhoC1

/-- Claim C1 (counterexample): the claim as stated - every reducer output
on a reachable state keeps both paddles in bounds, including Grow and
Teleport outputs - is false: from the reachable state `c1Bad` (51 ticks
into a game whose serve went downward at velocity 4, with the ball at
y = 504), an energy-funded `Teleport` moves the player paddle to
y = 504 > 500 = bottomBoundary − height. -/
theorem c1_paddle_bounds_counterexample :
    ¬ (∀ (s : State) (a : Actions) (ρ : Rand), Reachable s →
        EmittableAction a → ValidRand ρ →
        InBounds ((gameReducer s a ρ).paddleOne) ∧
          InBounds ((gameReducer s a ρ).paddleTwo)) := by
  intro h
  have hreach : Reachable c1Bad :=
    reachable_runTrace rhoC1 (by decide) (List.replicate 51 .Tick)
      (Reachable.init rhoC1 (by decide)) (by decide)
  have hbad := (h c1Bad .Teleport rhoC1 hreach (by decide) (by decide)).1
  exact absurd hbad (by decide)


/-! ## Claim C2: energy -/

/-- A positive natural-valued rational, minus one, is again natural. -/
theorem natval_sub_one {q : ℚ} (h : ∃ n : ℕ, q = n) (hpos : 0 < q) :
    ∃ n : ℕ, jssub q 1 = n := by
  obtain ⟨n, rfl⟩ := h
  have hn : 1 ≤ n := by
    rcases Nat.eq_zero_or_pos n with h0 | h1
    · subst h0; norm_num at hpos
    · exact h1
  refine ⟨n - 1, ?_⟩
  rw [jssub_eq]
  push_cast [Nat.cast_sub hn]
  ring

/-- Function `makePaddleState` keeps natural-valued energy natural-valued (the only
decrements are guarded by a positivity test). -/
theorem makePaddleState_energy_nat (person : ℚ → ℚ → ℚ → ℚ → RectBody)
    (he : ∀ p v e l, (person p v e l).energy = e)
    (prev : RectBody) (a : Actions) (b : CircleBody)
    (h : ∃ n : ℕ, prev.energy = n) :
    ∃ n : ℕ, (makePaddleState person prev a b).energy = n := by
  cases a with
  | Movement y x =>
      show ∃ n : ℕ, (movingPaddleState person prev y Constants.topBound
        (jssub Constants.canvasBottom Constants.bottomBound)).energy = ↑n
      rw [movingPaddleState_energy person he]
      exact h
  | PaddleGrowth sz =>
      simp only [makePaddleState]
      split_ifs with hp
      · rw [he]; exact natval_sub_one h hp
      · rw [movingPaddleState_energy person he]; exact h
  | Teleport =>
      simp only [makePaddleState]
      split_ifs with hp
      · rw [he]; exact natval_sub_one h hp
      · rw [movingPaddleState_energy person he]; exact h
  | Drain =>
      simp only [makePaddleState]
      split_ifs with hp
      · rw [he]; exact natval_sub_one h hp
      · rw [movingPaddleState_energy person he]; exact h
  | PaddleShrink sz =>
      simp only [makePaddleState]
      rw [he]; exact h
  | Tick =>
      show ∃ n : ℕ, (movingPaddleState person prev prev.yVel Constants.topBound
        (jssub Constants.canvasBottom Constants.bottomBound)).energy = ↑n
      rw [movingPaddleState_energy person he]
      exact h

/-- The energies of a state are natural numbers (the inductive-invariant
form of "energy is never negative"). -/
def EnergyNat (s : State) : Prop :=
  (∃ n : ℕ, s.playerEnergy.numeric = n) ∧
  (∃ n : ℕ, s.paddleOne.energy = n) ∧
  (∃ n : ℕ, s.paddleTwo.energy = n)

/-- One reducer step preserves natural-valued energies. -/
theorem energyNat_step (acc : State) (a : Actions) (ρ : Rand)
    (h : EnergyNat acc) : EnergyNat (gameReducer acc a ρ) := by
  obtain ⟨h0, h1, h2⟩ := h
  have heP : ∀ p v e l, (playerPaddle p v e l).energy = e := fun _ _ _ _ => rfl
  have heA : ∀ p v e l, (aiPaddle p v e l).energy = e := fun _ _ _ _ => rfl
  have hsub0 : ∃ n : ℕ, jssub acc.playerEnergy.numeric 0 = n := by
    obtain ⟨n, hn⟩ := h0
    exact ⟨n, by rw [jssub_eq, hn]; ring⟩
  have hadd1 : ∃ n : ℕ, jsadd acc.playerEnergy.numeric 1 = n := by
    obtain ⟨n, hn⟩ := h0
    exact ⟨n + 1, by rw [jsadd_eq, hn]; push_cast; ring⟩
  unfold gameReducer
  split_ifs with hA hB hC hD hE hF hG
  · exact ⟨natval_sub_one h0 hA.2,
      makePaddleState_energy_nat playerPaddle heP _ _ _ h1,
      makePaddleState_energy_nat aiPaddle heA _ _ _ h2⟩
  · exact ⟨natval_sub_one h0 hC,
      makePaddleState_energy_nat playerPaddle heP _ _ _ h1,
      makePaddleState_energy_nat aiPaddle heA _ _ _ h2⟩
  · exact ⟨hsub0,
      makePaddleState_energy_nat playerPaddle heP _ _ _ h1,
      makePaddleState_energy_nat aiPaddle heA _ _ _ h2⟩
  · exact ⟨h0, h0, h2⟩
  · exact ⟨hadd1, hadd1, h2⟩
  · exact ⟨h0, h0, h2⟩
  · exact ⟨h0, h0, h2⟩
  · exact ⟨hsub0,
      makePaddleState_energy_nat playerPaddle heP _ _ _ h1,
      makePaddleState_energy_nat aiPaddle heA _ _ _ h2⟩

/-- Every reachable state has natural-valued energies. -/
theorem reachable_energyNat {s : State} (h : Reachable s) : EnergyNat s := by
  induction h with
  | init ρ hρ =>
      refine ⟨⟨4, ?_⟩, ⟨4, ?_⟩, ⟨4, ?_⟩⟩ <;>
        norm_num [defaultEverythingState, createState, playerEnergy,
          defaultPlayerPaddleState, defaultAiPaddleState,
          createDefaultPaddleState, playerPaddle, aiPaddle, genericPaddle,
          Constants.startingEnergy]
  | step a ρ hs ha hρ ih => exact energyNat_step _ a ρ ih

/-- Claim C2 (amended): on every reachable state all stored energies are
≥ 0; an ability action arriving at zero energy leaves the energy unchanged
and degrades as follows: Grow and Teleport behave exactly like a timer tick
PROVIDED the incoming ball carries no scoring marker and neither score
stands at the winning threshold (otherwise the scoring / winning branch of
the priority chain runs instead - see the counterexample); Shrink always
degrades to a stop-movement tick (`Movement(0,0)` parse). -/
theorem c2_energy_amended :
    (∀ s : State, Reachable s →
      0 ≤ s.playerEnergy.numeric ∧ 0 ≤ s.paddleOne.energy ∧
        0 ≤ s.paddleTwo.energy) ∧
    (∀ (s : State) (ρ : Rand) (sz : ℚ),
      s.paddleOne.energy = s.playerEnergy.numeric →
      s.playerEnergy.numeric = 0 →
      s.ball.scoreUpdate = none →
      s.scoreOne.numeric ≠ Constants.winningScore →
      s.scoreTwo.numeric ≠ Constants.winningScore →
      gameReducer s (.PaddleGrowth sz) ρ = gameReducer s .Tick ρ ∧
      gameReducer s .Teleport ρ = gameReducer s .Tick ρ ∧
      (gameReducer s .Tick ρ).playerEnergy.numeric = 0) ∧
    (∀ (s : State) (ρ : Rand) (sz : ℚ),
      s.playerEnergy.numeric = 0 →
      gameReducer s (.PaddleShrink sz) ρ =
        createStandardParseState s (.Movement 0 0) 0 ρ ∧
      (gameReducer s (.PaddleShrink sz) ρ).playerEnergy.numeric = 0) := by
  refine ⟨?_, ?_, ?_⟩
  · intro s hs
    obtain ⟨⟨n0, h0⟩, ⟨n1, h1⟩, ⟨n2, h2⟩⟩ := reachable_energyNat hs
    rw [h0, h1, h2]
    exact ⟨Nat.cast_nonneg n0, Nat.cast_nonneg n1, Nat.cast_nonneg n2⟩
  · intro s ρ sz hsync hzero hm h7a h7b
    have hp1 : ¬ (0 < s.paddleOne.energy) := by
      rw [hsync, hzero]; exact lt_irrefl 0
    have hnum : ¬ (0 < s.playerEnergy.numeric) := by
      rw [hzero]; exact lt_irrefl 0
    have hAg : ¬(growOrTeleport (Actions.PaddleGrowth sz) = true ∧
        0 < s.playerEnergy.numeric) := fun hcontra => hnum hcontra.2
    have hAt : ¬(growOrTeleport Actions.Teleport = true ∧
        0 < s.playerEnergy.numeric) := fun hcontra => hnum hcontra.2
    have hAtick : ¬(growOrTeleport Actions.Tick = true ∧
        0 < s.playerEnergy.numeric) := fun hcontra => hnum hcontra.2
    have hp' : ¬ (s.ball.scoreUpdate = some .p) := by
      rw [hm]; exact Option.noConfusion
    have hc' : ¬ (s.ball.scoreUpdate = some .c) := by
      rw [hm]; exact Option.noConfusion
    refine ⟨?_, ?_, ?_⟩
    · unfold gameReducer
      rw [if_neg hAg, if_neg hAtick,
        if_neg (show ¬(shrinkAction (Actions.PaddleGrowth sz) = true) by
          simp [shrinkAction]),
        if_neg (show ¬(shrinkAction Actions.Tick = true) by
          simp [shrinkAction]),
        if_neg hp', if_neg hp', if_neg hc', if_neg hc',
        if_neg h7a, if_neg h7a, if_neg h7b, if_neg h7b]
      simp only [createStandardParseState, createState, makePaddleState,
        if_neg hp1]
    · unfold gameReducer
      rw [if_neg hAt, if_neg hAtick,
        if_neg (show ¬(shrinkAction Actions.Teleport = true) by
          simp [shrinkAction]),
        if_neg (show ¬(shrinkAction Actions.Tick = true) by
          simp [shrinkAction]),
        if_neg hp', if_neg hp', if_neg hc', if_neg hc',
        if_neg h7a, if_neg h7a, if_neg h7b, if_neg h7b]
      simp only [createStandardParseState, createState, makePaddleState,
        if_neg hp1]
    · unfold gameReducer
      rw [if_neg hAtick,
        if_neg (show ¬(shrinkAction Actions.Tick = true) by
          simp [shrinkAction]),
        if_neg hp', if_neg hc', if_neg h7a, if_neg h7b]
      simp only [createStandardParseState, createState, playerEnergy]
      rw [jssub_eq, hzero]
      norm_num
  · intro s ρ sz hzero
    have hnum : ¬ (0 < s.playerEnergy.numeric) := by
      rw [hzero]; exact lt_irrefl 0
    have hAg : ¬(growOrTeleport (Actions.PaddleShrink sz) = true ∧
        0 < s.playerEnergy.numeric) := fun hcontra => hnum hcontra.2
    constructor
    · unfold gameReducer
      rw [if_neg hAg, if_pos (show shrinkAction (Actions.PaddleShrink sz) = true
          from rfl), if_neg hnum]
    · unfold gameReducer
      rw [if_neg hAg, if_pos (show shrinkAction (Actions.PaddleShrink sz) = true
          from rfl), if_neg hnum]
      simp only [createStandardParseState, createState, playerEnergy]
      rw [jssub_eq, hzero]
      norm_num

/-- A legal game state with zero player energy (for the C2 witness). -/
def z0 : State :=
  createState (playerPaddle 255 0 0 90) defaultAiPaddleState
    (ball 450 300 5 0 none 10) (playerScore 0) (aiScore 0) (playerEnergy 0)
    none

/-- Claim C2 (witness for the amended theorem). -/
theorem c2_energy_amended_witness :
    (0 ≤ (defaultEverythingState rand0).playerEnergy.numeric ∧
      0 ≤ (defaultEverythingState rand0).paddleOne.energy ∧
      0 ≤ (defaultEverythingState rand0).paddleTwo.energy) ∧
    gameReducer z0 (.PaddleGrowth 30) rand0 = gameReducer z0 .Tick rand0 ∧
    gameReducer z0 (.PaddleShrink 15) rand0 =
      createStandardParseState z0 (.Movement 0 0) 0 rand0 :=
  ⟨c2_energy_amended.1 (defaultEverythingState rand0)
      (Reachable.init rand0 (by decide)),
    (c2_energy_amended.2.1 z0 rand0 30 (by decide) (by decide) (by decide)
      (by decide) (by decide)).1,
    (c2_energy_amended.2.2 z0 rand0 15 (by decide)).1⟩

/-- The random draws of the C2 trace: the serve is horizontal
(`rCoin = 0`, `rMag = 0`), and the one paddle bounce the trace contains
deflects the ball downward at `8·(63/64)` per tick plus the impact offset. -/
def rhoC2 : Rand := ⟨0, jsdiv 63 64, 0, 0⟩

/-- Four funded shrink events (player energy 4 → 0), then 239 ticks: the
ball serves toward the AI, bounces off the shrunken AI paddle, travels back
left past the (undisturbed) player paddle at a height the paddle does not
cover, and crosses the left wall: the resulting reachable state has player
energy 0 and a cpu-scored marker on the ball. -/
def c2Bad : State :=
  runTrace (defaultEverythingState rhoC2)
    (List.replicate 4 (.PaddleShrink 15) ++ List.replicate 239 .Tick) rhoC2

/-- Claim C2 (counterexample): the claim - an ability action arriving at
zero energy leaves the energy unchanged and degrades to a plain no-op
movement tick - is false on the reachable state `c2Bad` (energy 0, ball
marked cpu-scored): a `PaddleGrowth` event falls through the ability branch
into the cpu-scored branch, which INCREMENTS the player's energy to 1 (and
increments the cpu score), rather than leaving the state as a movement tick
would. -/
theorem c2_energy_counterexample :
    ¬ (∀ (s : State) (ρ : Rand), Reachable s → ValidRand ρ →
        s.playerEnergy.numeric = 0 →
        (gameReducer s (.PaddleGrowth 30) ρ).playerEnergy.numeric =
          s.playerEnergy.numeric) := by
  intro h
  have hreach : Reachable c2Bad :=
    reachable_runTrace rhoC2 (by decide) _ (Reachable.init rhoC2 (by decide))
      (by decide)
  have hbad := h c2Bad rhoC2 hreach (by decide) (by decide)
  exact absurd hbad (by decide)

/-- Claim C7 (witness for the amended theorem, at zero random draws). -/
theorem c7_paddle_reflect_amended_witness :
    movingBallState (ball 55 300 (-5) 0 none 10) pl255 defaultAiPaddleState 0 0
      = ball 60 (300 + 8 * 0) 5 (8 * 0) none Constants.ballRadius :=
  c7_paddle_reflect_amended defaultAiPaddleState 0 0

/-- Claim C9 (witness: the shrink equation at a concrete zero-energy
paddle, showing the absence of an energy check on the target). -/
theorem c9_shrink_witness :
    makePaddleState playerPaddle (playerPaddle 255 0 0 90) (.PaddleShrink 15)
        (ball 450 300 0 0 none 10) =
      playerPaddle 255 0 0 (jssub 90 15) :=
  c9_shrink.1 playerPaddle (playerPaddle 255 0 0 90) (ball 450 300 0 0 none 10)
    15

end Pong
